import Mathlib

/-!
Shallow embedding of the scene/frame-scheduler core (`libs/game/scene.ts`)
and of the serial module of pxt-common-packages, together with proofs of the
specified properties.

Conventions of the embedding:
* A TypeScript field that may be `undefined` is an `Option` in Lean; the
  constructor assigns `some` exactly to the fields the source constructor
  assigns, and `Scene.destroy` sets to `none` exactly the fields the source
  sets to `undefined`.
* An operation that would dereference `undefined` at runtime (e.g.
  `allSprites.push` before `init()`) returns `none`.
* Closures registered as frame handlers are identified by a tag
  (`FrameHandlerTag`); the event context stores `(priority, tag)` pairs in
  registration order, and fires them sorted by ascending priority with ties
  in registration order (stable sort), per the frame-scheduler contract.
* External collaborators (controller, physics engine internals, the screen,
  `power`, perf counters) live outside this repository slice; where a frame
  handler body only calls such a collaborator, the handler is modelled as the
  identity on the scene-owned state, which is what the spec asserts about it.
-/

/-- Tag identifying each closure that `Scene.init` registers with the event
context, in source order. -/
inductive FrameHandlerTag where
  | controllerUpdate
  | moveSprites
  | physics
  | renderSprites
  | renderDiagnostics
  | updateScreen
deriving DecidableEq, Repr

/-- Model of `control.EventContext` as consumed by the scene: a registry of
`(priority, handler)` pairs in registration order, plus the externally
supplied frame delta time. -/
structure EventContext where
  handlers : List (Nat × FrameHandlerTag) := []
  deltaTimeMillis : Nat := 0
deriving DecidableEq, Repr

/-- Model of `eventContext.registerFrameHandler(priority, callback)`: appends the pair
to the registry (registration order is preserved). -/
def registerFrameHandler (ctx : EventContext) (priority : Nat)
    (tag : FrameHandlerTag) : EventContext :=
  { ctx with handlers := ctx.handlers ++ [(priority, tag)] }

/-- The event context fires its registered handlers once per tick, in
ascending priority order, ties broken by registration order (stable sort). -/
def fireOrder (ctx : EventContext) : List (Nat × FrameHandlerTag) :=
  ctx.handlers.mergeSort (fun a b => a.1 ≤ b.1)

/-- Model of `scene.Camera`, an external collaborator; only its identity matters to
the claims, so it is a plain record. -/
structure Camera where
  offsetX : Int := 0
  offsetY : Int := 0
deriving DecidableEq, Repr

/-- Model of `Background`, constructed from the scene camera (`new Background(this.camera)`). -/
structure Background where
  camera : Camera
deriving DecidableEq, Repr

/-- Model of `ArcadePhysicsEngine`, an external collaborator held by the scene. -/
structure PhysicsEngine where
  tag : Nat := 0
deriving DecidableEq, Repr

/-- A sprite-like entity: `key` is identity payload the registry never
touches, `z` the render sort key, and `id` the registry-assigned identifier
(`none` until `addSprite` assigns it, like the `undefined` field in TS). -/
structure SpriteLike where
  key : Nat
  z : Int := 0
  id : Option Nat := none
deriving DecidableEq, Repr

/-- Model of `scene.SpriteHandler`: a `(kind, handler)` pair; the closure is
identified by a tag. -/
structure SpriteHandler where
  kind : Nat
  handlerTag : Nat
deriving DecidableEq, Repr

/-- Model of `scene.OverlapHandler`: a `(kind, otherKind, handler)` triple. -/
structure OverlapHandler where
  kind : Nat
  otherKind : Nat
  handlerTag : Nat
deriving DecidableEq, Repr

/-- Model of `scene.GameForeverHandler`: a callback with a re-entrancy lock. -/
structure GameForeverHandler where
  lock : Bool := false
  handlerTag : Nat
deriving DecidableEq, Repr

/-- The image the render pipeline produces on the screen: the drawn
background plus the sprites drawn on top of it, in draw order. -/
structure Image where
  bg : Background
  drawn : List SpriteLike
deriving DecidableEq, Repr

/-- Model of `scene.Flag.NeedsSorting = 1 << 1`. -/
def SceneFlag.NeedsSorting : Nat := 2

/-- Frame handler priority constants from `scene.ts`. -/
def CONTROLLER_PRIORITY : Nat := 8

/-- Priority of the controller-driven sprite movement handler. -/
def CONTROLLER_SPRITES_PRIORITY : Nat := 13

/-- Priority reserved for sprite following (camera follow). -/
def FOLLOW_SPRITE_PRIORITY : Nat := 14

/-- Priority of the physics/update handler. -/
def PHYSICS_PRIORITY : Nat := 15

/-- Priority reserved for the user update-interval slot. -/
def UPDATE_INTERVAL_PRIORITY : Nat := 19

/-- Priority reserved for the user update slot. -/
def UPDATE_PRIORITY : Nat := 20

/-- Priority of the background+sprite render handler. -/
def RENDER_SPRITES_PRIORITY : Nat := 90

/-- Priority of the diagnostics overlay handler. -/
def RENDER_DIAGNOSTICS_PRIORITY : Nat := 150

/-- Priority of the screen flush handler. -/
def UPDATE_SCREEN_PRIORITY : Nat := 200

/-- The `Scene` class. Every field the source may leave `undefined` is an
`Option`; sparse arrays are association lists, closures are tags, and the
open data bag is a string-keyed list. -/
structure Scene where
  eventContext : Option EventContext := none
  background : Option Background := none
  tileMap : Option Nat := none
  allSprites : Option (List SpriteLike) := none
  spriteNextId : Option Nat := none
  spritesByKind : Option (List (Nat × List Nat)) := none
  physicsEngine : Option PhysicsEngine := none
  camera : Option Camera := none
  flags : Option Nat := none
  destroyedHandlers : Option (List SpriteHandler) := none
  createdHandlers : Option (List SpriteHandler) := none
  overlapHandlers : Option (List OverlapHandler) := none
  overlapMap : Option (List (Nat × List Nat)) := none
  collisionHandlers : Option (List (Nat × List SpriteHandler)) := none
  gameForeverHandlers : Option (List GameForeverHandler) := none
  particleSources : Option (List Nat) := none
  controlledSprites : Option (List (List Nat)) := none
  followingSprites : Option (List Nat) := none
  millisElapsed : Option Nat := none
  dataBag : Option (List (String × Int)) := none
  cachedRender : Option Image := none
deriving DecidableEq, Repr

/-- The `Scene` constructor: assigns exactly the fields the source
constructor assigns (`eventContext`, `flags = 0`, a fresh physics engine,
camera, background over that camera, the empty handler lists and sparse
maps, the empty data bag, `_millis = 0`); `tileMap`, `allSprites`,
`spriteNextId`, `particleSources`, `followingSprites` and `cachedRender`
stay unassigned. -/
def mkScene (ctx : EventContext) : Scene :=
  { eventContext := some ctx
    flags := some 0
    physicsEngine := some {}
    camera := some {}
    background := some { camera := {} }
    destroyedHandlers := some []
    createdHandlers := some []
    overlapHandlers := some []
    overlapMap := some []
    collisionHandlers := some []
    gameForeverHandlers := some []
    spritesByKind := some []
    controlledSprites := some []
    dataBag := some []
    millisElapsed := some 0 }

/-- Model of `Scene.init()`: a no-op if `allSprites` already exists; otherwise
allocates the sprite list and the id counter, registers the frame handlers
in source order at priorities 8, 13, 15, 90, 150, 200 (the source has only
comments at 14, 19 and 20), and finally runs the static `Scene.initializers`
callbacks, passed here as the parameter `inits`. Returns `none` when the
event context is `undefined` (registration would throw). -/
def Scene.init (inits : List (Scene → Scene)) (s : Scene) : Option Scene :=
  if s.allSprites.isSome then some s
  else
    match s.eventContext with
    | none => none
    | some ctx0 =>
      let ctx1 := registerFrameHandler ctx0 CONTROLLER_PRIORITY .controllerUpdate
      let ctx2 := registerFrameHandler ctx1 CONTROLLER_SPRITES_PRIORITY .moveSprites
      let ctx3 := registerFrameHandler ctx2 PHYSICS_PRIORITY .physics
      let ctx4 := registerFrameHandler ctx3 RENDER_SPRITES_PRIORITY .renderSprites
      let ctx5 := registerFrameHandler ctx4 RENDER_DIAGNOSTICS_PRIORITY .renderDiagnostics
      let ctx6 := registerFrameHandler ctx5 UPDATE_SCREEN_PRIORITY .updateScreen
      some (inits.foldl (fun sc f => f sc)
        { s with
          eventContext := some ctx6
          allSprites := some []
          spriteNextId := some 0 })

/-- Model of `Scene.addSprite(sprite)`: pushes onto `allSprites` and assigns
`sprite.id = spriteNextId++`. Returns `none` when `allSprites` is
`undefined` (the push would throw); an `undefined` counter propagates as an
unassigned id, like `NaN` in the source. -/
def Scene.addSprite (s : Scene) (sp : SpriteLike) : Option Scene :=
  match s.allSprites with
  | none => none
  | some l =>
    some { s with
      allSprites := some (l ++ [{ sp with id := s.spriteNextId }])
      spriteNextId := s.spriteNextId.map (· + 1) }

/-- Model of `Scene.destroy()`: sets to `undefined` exactly the fields the source
sets (`eventContext`, `background`, `tileMap`, `allSprites`, `spriteNextId`,
`spritesByKind`, `physicsEngine`, `camera`, `flags`, `destroyedHandlers`,
`createdHandlers`, `overlapHandlers`, `collisionHandlers`,
`gameForeverHandlers`, `_data`); the source does not touch `overlapMap`,
`particleSources`, `controlledSprites`, `followingSprites`, `_millis` or
`cachedRender`. -/
def Scene.destroy (s : Scene) : Scene :=
  { s with
    eventContext := none
    background := none
    tileMap := none
    allSprites := none
    spriteNextId := none
    spritesByKind := none
    physicsEngine := none
    camera := none
    flags := none
    destroyedHandlers := none
    createdHandlers := none
    overlapHandlers := none
    collisionHandlers := none
    gameForeverHandlers := none
    dataBag := none }

/-- The sprite sort comparator of `renderCore`:
`function (a, b) { return a.z - b.z || a.id - b.id; }`, as a boolean
less-or-equal (ascending `z`, ties by ascending `id`). -/
def spriteLE (a b : SpriteLike) : Bool :=
  a.z < b.z || (a.z == b.z && a.id.getD 0 ≤ b.id.getD 0)

/-- The draw-order relation the comparator realizes, as a proposition:
ascending `z`, ties broken by ascending `id`. -/
def zIdLE (a b : SpriteLike) : Prop :=
  a.z < b.z ∨ (a.z = b.z ∧ a.id.getD 0 ≤ b.id.getD 0)

/-- Model of `Scene.renderCore()`: draws the background, sorts `allSprites` by the
comparator when the `NeedsSorting` flag is set (the source sorts in place),
then draws every sprite in list order. The produced screen content is
returned as the `Image`; `none` when `background` or `allSprites` is
`undefined` (the draw would throw). An `undefined` `flags` behaves as 0
(`undefined & 2` is falsy in the source). -/
def Scene.renderCore (s : Scene) : Option (Scene × Image) :=
  match s.background, s.allSprites with
  | some bg, some l0 =>
    let l := if s.flags.getD 0 &&& SceneFlag.NeedsSorting ≠ 0
             then l0.mergeSort spriteLE else l0
    some ({ s with allSprites := some l }, { bg := bg, drawn := l })
  | _, _ => none

/-- Model of `Scene.render()`: returns `cachedRender` unchanged when set; otherwise
runs `renderCore`, snapshots the screen (`screen.clone()`, i.e. the image
`renderCore` just produced) into `cachedRender`, and returns it. -/
def Scene.render (s : Scene) : Option (Scene × Image) :=
  match s.cachedRender with
  | some img => some (s, img)
  | none =>
    match s.renderCore with
    | none => none
    | some (s1, img) => some ({ s1 with cachedRender := some img }, img)

/-- The image a fresh draw of the scene would produce right now. -/
def Scene.freshFrame (s : Scene) : Option Image :=
  s.renderCore.map Prod.snd

/-- The priority-8 handler body: advances `_millis` by the event context
delta time (the controller update itself is an external collaborator). -/
def Scene.controllerUpdateHandler (s : Scene) : Scene :=
  match s.millisElapsed, s.eventContext with
  | some m, some ctx => { s with millisElapsed := some (m + ctx.deltaTimeMillis) }
  | _, _ => s

/-- Modelled from the spec: the priority-13 handler is
`controller._moveSprites`, an external collaborator that moves
controller-bound sprites and does not mutate the scene-owned registry state
modelled here. -/
def Scene.moveSpritesHandler (s : Scene) : Scene := s

/-- The priority-15 handler body: physics engine move, camera update and
per-sprite `__update` — all external collaborator effects; it reads
`physicsEngine` and iterates `allSprites` (throwing when they are
`undefined`) and mutates none of the scene-owned fields modelled here. -/
def Scene.physicsHandler (s : Scene) : Option Scene :=
  match s.physicsEngine, s.allSprites with
  | some _, some _ => some s
  | _, _ => none

/-- The priority-90 handler body: unconditionally clears `cachedRender`,
then runs `renderCore`. -/
def Scene.renderSpritesHandler (s : Scene) : Option Scene :=
  (Scene.renderCore { s with cachedRender := none }).map Prod.fst

/-- The priority-150 handler body: draws the stats/debug/console overlays
(external collaborators), clears `flags` to 0, and checks deep sleep
(external). -/
def Scene.renderDiagnosticsHandler (s : Scene) : Scene :=
  { s with flags := some 0 }

/-- The priority-200 handler body: `control.__screen.update`, an external
screen flush that does not touch the scene. -/
def Scene.updateScreenHandler (s : Scene) : Scene := s

/-- One sprite-registry operation: an `addSprite` call, or an external
removal of the sprites matching a predicate from `allSprites` (the registry
itself exposes no removal; removal by the physics/lifecycle collaborator
touches only the list, never `spriteNextId`). -/
inductive RegOp where
  | add (sp : SpriteLike)
  | remove (p : SpriteLike → Bool)

/-- External sprite removal: filters `allSprites`, leaving every other field
(in particular `spriteNextId`) untouched. -/
def applyRemove (p : SpriteLike → Bool) (s : Scene) : Scene :=
  { s with allSprites := s.allSprites.map (fun l => l.filter (fun x => !(p x))) }

/-- Runs a sequence of registry operations, recording the id assigned by
each `add` in call order. -/
def runOps (s : Scene) : List RegOp → Option (Scene × List (Option Nat))
  | [] => some (s, [])
  | RegOp.add sp :: ops =>
    match s.addSprite sp with
    | none => none
    | some s1 =>
      match runOps s1 ops with
      | none => none
      | some (s2, ids) => some (s2, s.spriteNextId :: ids)
  | RegOp.remove p :: ops => runOps (applyRemove p s) ops

/-- Number of `add` operations in a registry-operation sequence. -/
def countAdds : List RegOp → Nat
  | [] => 0
  | RegOp.add _ :: ops => countAdds ops + 1
  | RegOp.remove _ :: ops => countAdds ops

/-!
The serial module (`serial` namespace of the unnamed source file): write
paths are modelled as the byte stream they hand to the transport, reads and
configuration as functions over a transport state that may lack a device.
-/

/-- Model of `serial.NEW_LINE = "\r\n"` (a mutable global in the source; modelled at
its initialized value). -/
def NEW_LINE : List Char := ['\r', '\n']

/-- Model of `serial.writeString(text)`: converts the text to its UTF-8 bytes and
hands them to `writeBuffer`; the model returns the emitted stream. -/
def writeString (text : List Char) : List Char := text

/-- Model of `serial.writeLine(text)`: `writeString(text); writeString(NEW_LINE)`. -/
def writeLine (text : List Char) : List Char :=
  writeString text ++ writeString NEW_LINE

/-- Model of `serial.writeNumber(value)`: `writeString(value.toString())`. -/
def writeNumber (value : Int) : List Char :=
  writeString (toString value).data

/-- Model of `serial.writeValue(name, value)`: when `name` is truthy (non-empty)
writes `name` and `":"`, then the number and the line terminator. -/
def writeValue (name : List Char) (value : Int) : List Char :=
  (if name.isEmpty then [] else writeString name ++ writeString [':'])
    ++ writeNumber value ++ writeString NEW_LINE

/-- Modelled from the spec: the serial transport device (external to this
repository slice) — a receive buffer, the transmitted stream, and the
configurable sizes/baud/listeners that the configuration calls reach. -/
structure SerialDevice where
  rxBuffer : List Nat := []
  txOut : List Nat := []
  rxSize : Nat := 0
  txSize : Nat := 0
  baud : Nat := 0
  listeners : List (Nat × Nat) := []
deriving DecidableEq, Repr

/-- The transport state seen by the serial functions: `device()` yields
`some` transport or `none` when no transport is available. -/
structure SerialState where
  device : Option SerialDevice := none
deriving DecidableEq, Repr

/-- Model of `DAL.DEVICE_NOT_SUPPORTED`: the codal negative error constant returned
by `serial.read()` when no transport exists (its doc: negative if error,
0 if no data). -/
def DAL_DEVICE_NOT_SUPPORTED : Int := -1005

/-- Model of `serial.read()`: a single byte from the receive buffer, `0` if no data,
`DAL.DEVICE_NOT_SUPPORTED` if there is no device. -/
def serialRead (st : SerialState) : Int × SerialState :=
  match st.device with
  | some d =>
    match d.rxBuffer with
    | [] => (0, st)
    | b :: rest => ((b : Int), { st with device := some { d with rxBuffer := rest } })
  | none => (DAL_DEVICE_NOT_SUPPORTED, st)

/-- Model of `serial.readBuffer()`: the buffered received bytes, or the empty buffer
(`control.createBuffer(0)`) if there is no device. -/
def serialReadBuffer (st : SerialState) : List Nat × SerialState :=
  match st.device with
  | some d => (d.rxBuffer, { st with device := some { d with rxBuffer := [] } })
  | none => ([], st)

/-- Model of `serial.writeBuffer(buffer)`: sends the bytes, or does nothing if there
is no device. -/
def serialWriteBuffer (st : SerialState) (b : List Nat) : SerialState :=
  match st.device with
  | none => st
  | some d => { st with device := some { d with txOut := d.txOut ++ b } }

/-- Model of `serial.setRxBufferSize(size)`: configures the device, or does nothing
if there is none. -/
def serialSetRxBufferSize (st : SerialState) (n : Nat) : SerialState :=
  match st.device with
  | none => st
  | some d => { st with device := some { d with rxSize := n } }

/-- Model of `serial.setTxBufferSize(size)`: configures the device, or does nothing
if there is none. -/
def serialSetTxBufferSize (st : SerialState) (n : Nat) : SerialState :=
  match st.device with
  | none => st
  | some d => { st with device := some { d with txSize := n } }

/-- Model of `serial.setBaudRate(rate)`: configures the device, or does nothing if
there is none. -/
def serialSetBaudRate (st : SerialState) (rate : Nat) : SerialState :=
  match st.device with
  | none => st
  | some d => { st with device := some { d with baud := rate } }

/-- Model of `serial.redirect(tx, rx, rate)`: reconfigures the transport pins and
rate, or does nothing if there is no device. -/
def serialRedirect (st : SerialState) (tx rx rate : Nat) : SerialState :=
  match st.device with
  | none => st
  | some d => { st with device := some { d with baud := rate, rxSize := tx + rx } }

/-- Model of `serial.onEvent(event, handler)`: registers the callback with the
device, or does nothing if there is none. -/
def serialOnEvent (st : SerialState) (event handlerTag : Nat) : SerialState :=
  match st.device with
  | none => st
  | some d => { st with device := some { d with listeners := d.listeners ++ [(event, handlerTag)] } }

/-- Modelled from the spec: `UTF8Decoder.decodeUntil(delimiter)` — the
stateful decoder returns the decoded text up to and excluding the first
occurrence of the delimiter together with the rest of its buffer, or `none`
when the delimiter has not yet appeared. -/
def decodeUntil (delim : Char) (buf : List Char) : Option (List Char × List Char) :=
  if delim ∈ buf then
    some (buf.takeWhile (fun c => c != delim),
          (buf.dropWhile (fun c => c != delim)).drop 1)
  else none

/-- The decoder buffer contents at the start of poll iteration `t`:
the initial buffer plus every chunk read in iterations `0 … t-1`. -/
def accum (buf0 : List Char) (input : Nat → List Char) : Nat → List Char
  | 0 => buf0
  | t + 1 => accum buf0 input t ++ input t

/-- The `do … while` loop of `serial.readUntil`: at iteration start time `t`
it tries `decodeUntil` on the buffer, returning the decoded text (and the
return time) on success; otherwise it reads `readBuffer` (the chunk
`input t`), adds it to the decoder, pauses one time unit, and loops while
`timeOut === undefined || millis - start < timeOut`; on loop exit it gives
up with the empty string. `fuel` bounds the iterations the model unfolds:
`none` means the loop was still running after `fuel` iterations. -/
def readUntilAux (delim : Char) (timeOut : Option Nat) (input : Nat → List Char) :
    List Char → Nat → Nat → Option (List Char × Nat)
  | _, _, 0 => none
  | buf, t, fuel + 1 =>
    match decodeUntil delim buf with
    | some (s, _) => some (s, t)
    | none =>
      let buf1 := buf ++ input t
      let t1 := t + 1
      if timeOut.all (fun T => decide (t1 < T)) then
        readUntilAux delim timeOut input buf1 t1 fuel
      else
        some ([], t1)

/-- Model of `serial.readUntil(delimiter, timeOut?)` with initial decoder buffer
`buf0`, started at time 0. -/
def readUntil (delim : Char) (timeOut : Option Nat) (input : Nat → List Char)
    (buf0 : List Char) (fuel : Nat) : Option (List Char × Nat) :=
  readUntilAux delim timeOut input buf0 0 fuel

/-!
Concrete values used by the witness and counterexample theorems.
-/

/-- A concrete event context with no registered handlers. -/
def demoCtx : EventContext := {}

/-- The scene obtained by running `init()` (with no registered static
initializers) on a freshly constructed scene. -/
def demoInited : Scene :=
  (Scene.init [] (mkScene demoCtx)).getD (mkScene demoCtx)

/-- A concrete operation sequence: add, remove, add. -/
def demoOps : List RegOp :=
  [RegOp.add { key := 10 }, RegOp.remove (fun x => x.key == 10),
   RegOp.add { key := 11 }]

/-- A concrete image, as cached by a previous render. -/
def demoImg : Image :=
  { bg := { camera := {} }, drawn := [{ key := 7, id := some 0 }] }

/-- An initialized scene holding a cached render. -/
def demoCached : Scene := { demoInited with cachedRender := some demoImg }

/-- A scene with a non-empty overlap map, about to be destroyed. -/
def demoOverlap : Scene := { mkScene demoCtx with overlapMap := some [(1, [2])] }

/-- A concrete unsorted sprite list. -/
def demoSprites : List SpriteLike :=
  [{ key := 0, z := 5, id := some 0 }, { key := 1, z := 0, id := some 2 },
   { key := 2, z := 0, id := some 1 }]

/-- An initialized scene with sprites and the `NeedsSorting` flag set. -/
def demoDirty : Scene :=
  { demoInited with
    allSprites := some demoSprites
    flags := some SceneFlag.NeedsSorting }

/-- A concrete serial input stream: one chunk holding the delimiter arrives
at the first poll, nothing afterwards. -/
def demoInput : Nat → List Char :=
  fun t => if t = 0 then ['b', ':', 'c'] else []

/-!
Theorems.
-/

/-- Inversion of a first `init()` on a freshly constructed scene (with no
static initializers): it allocates the empty sprite list and the zeroed id
counter. -/
theorem init_fresh_fields (ctx : EventContext) (s0 : Scene)
    (hinit : Scene.init [] (mkScene ctx) = some s0) :
    s0.allSprites = some [] ∧ s0.spriteNextId = some 0 := by
  simp [Scene.init, mkScene] at hinit
  constructor <;> rw [← hinit]

/-- C5: `init()` is idempotent — on any scene where `allSprites` already
exists (in particular on the scene a first `init()` produced), a second
`init()` returns the scene unchanged: it registers no handler and modifies
no field, the double call being detected by `allSprites` already existing. -/
theorem claim5_init_idempotent :
    (∀ (inits : List (Scene → Scene)) (s : Scene),
        s.allSprites.isSome → Scene.init inits s = some s) ∧
    (∀ (ctx : EventContext) (s0 : Scene),
        Scene.init [] (mkScene ctx) = some s0 →
        ∀ (inits : List (Scene → Scene)), Scene.init inits s0 = some s0) := by
  have h1 : ∀ (inits : List (Scene → Scene)) (s : Scene),
      s.allSprites.isSome → Scene.init inits s = some s := by
    intro inits s h
    simp [Scene.init, h]
  refine ⟨h1, fun ctx s0 hinit inits => h1 inits s0 ?_⟩
  rw [(init_fresh_fields ctx s0 hinit).1]
  rfl

/-- Witness for C5: a second `init()` on the concrete initialized scene is a
no-op. -/
theorem claim5_init_idempotent_witness :
    Scene.init [] demoInited = some demoInited :=
  claim5_init_idempotent.1 [] demoInited (by decide)

/-- C6 (amended): `destroy()` sets to `undefined` exactly the owned fields
the source lists — event context, background, tile map, sprite list and id
counter, sprite-kind map, physics engine, camera, flags, the destroyed/
created/overlap/collision/forever handler lists and the data bag — while
`overlapMap`, `particleSources`, `controlledSprites`, `followingSprites`,
the elapsed-time counter and `cachedRender` are left untouched. -/
theorem claim6_destroy_releases (s : Scene) :
    (s.destroy).eventContext = none ∧
    (s.destroy).background = none ∧
    (s.destroy).tileMap = none ∧
    (s.destroy).allSprites = none ∧
    (s.destroy).spriteNextId = none ∧
    (s.destroy).spritesByKind = none ∧
    (s.destroy).physicsEngine = none ∧
    (s.destroy).camera = none ∧
    (s.destroy).flags = none ∧
    (s.destroy).destroyedHandlers = none ∧
    (s.destroy).createdHandlers = none ∧
    (s.destroy).overlapHandlers = none ∧
    (s.destroy).collisionHandlers = none ∧
    (s.destroy).gameForeverHandlers = none ∧
    (s.destroy).dataBag = none ∧
    (s.destroy).overlapMap = s.overlapMap ∧
    (s.destroy).particleSources = s.particleSources ∧
    (s.destroy).controlledSprites = s.controlledSprites ∧
    (s.destroy).followingSprites = s.followingSprites ∧
    (s.destroy).millisElapsed = s.millisElapsed ∧
    (s.destroy).cachedRender = s.cachedRender := by
  simp [Scene.destroy]

/-- C6 counterexample: on a scene whose overlap map is non-empty,
`destroy()` leaves `overlapMap` defined — the post-destroy state is not
uniformly empty. -/
theorem claim6_counterexample :
    (demoOverlap.destroy).overlapMap = some [(1, [2])] ∧
    (demoOverlap.destroy).overlapMap ≠ none := by
  constructor <;> decide

/-- C10: the constructor leaves `allSprites` and `spriteNextId` unassigned,
so `addSprite` (and `render`, which iterates `allSprites`) fails on a
constructed scene before `init()`; `addSprite` succeeds exactly when the
sprite list exists, which a first `init()` establishes and `destroy()`
revokes. -/
theorem claim10_addSprite_requires_init :
    (∀ (ctx : EventContext),
        (mkScene ctx).allSprites = none ∧ (mkScene ctx).spriteNextId = none) ∧
    (∀ (ctx : EventContext) (sp : SpriteLike), (mkScene ctx).addSprite sp = none) ∧
    (∀ (ctx : EventContext), (mkScene ctx).render = none) ∧
    (∀ (s : Scene) (sp : SpriteLike),
        s.allSprites.isSome → (s.addSprite sp).isSome) ∧
    (∀ (ctx : EventContext) (s0 : Scene),
        Scene.init [] (mkScene ctx) = some s0 → s0.allSprites.isSome) ∧
    (∀ (s : Scene) (sp : SpriteLike), (s.destroy).addSprite sp = none) := by
  refine ⟨fun ctx => ⟨rfl, rfl⟩, fun ctx sp => rfl, fun ctx => rfl,
    fun s sp h => ?_, fun ctx s0 hinit => ?_, fun s sp => rfl⟩
  · match hA : s.allSprites with
    | some l => simp [Scene.addSprite, hA]
    | none => rw [hA] at h; simp at h
  · rw [(init_fresh_fields ctx s0 hinit).1]
    rfl

/-- Witness for C10: on the concrete initialized scene, `addSprite`
succeeds; the initialized scene indeed has a sprite list. -/
theorem claim10_addSprite_requires_init_witness :
    ((demoInited.addSprite { key := 10 }).isSome) ∧ demoInited.allSprites.isSome :=
  ⟨claim10_addSprite_requires_init.2.2.2.1 demoInited { key := 10 } (by decide),
   claim10_addSprite_requires_init.2.2.2.2.1 demoCtx demoInited (by decide)⟩

/-- The id list identity used when peeling one `add` off a run. -/
theorem range_map_some_succ (k n : Nat) :
    (List.range (n + 1)).map (fun i => (some (k + i) : Option Nat))
      = some k :: (List.range n).map (fun i => (some (k + 1 + i) : Option Nat)) := by
  rw [List.range_succ_eq_map, List.map_cons, List.map_map]
  refine congrArg₂ _ (by simp) (List.map_congr_left fun i _ => ?_)
  simp only [Function.comp_apply]
  exact congrArg some (by omega)

/-- Registry invariant: from any state whose sprite list exists and whose
counter reads `k`, a sequence of operations containing `n` adds assigns the
ids `k, k+1, …, k+n-1` in call order and leaves the counter at `k+n` — no
matter how removals are interleaved, since removal never touches the
counter. -/
theorem runOps_ids (ops : List RegOp) :
    ∀ (s : Scene) (l : List SpriteLike) (k : Nat),
      s.allSprites = some l → s.spriteNextId = some k →
      ∃ s2, runOps s ops
          = some (s2, (List.range (countAdds ops)).map (fun i => some (k + i))) ∧
        s2.spriteNextId = some (k + countAdds ops) ∧ s2.allSprites.isSome := by
  induction ops with
  | nil =>
    intro s l k hA hK
    exact ⟨s, by simp [runOps, countAdds], by simp [hK, countAdds], by simp [hA]⟩
  | cons op ops ih =>
    intro s l k hA hK
    cases op with
    | add sp =>
      have hAdd : s.addSprite sp = some { s with
          allSprites := some (l ++ [{ sp with id := some k }])
          spriteNextId := some (k + 1) } := by
        simp [Scene.addSprite, hA, hK]
      obtain ⟨s2, hrun, hK2, hA2⟩ := ih { s with
          allSprites := some (l ++ [{ sp with id := some k }])
          spriteNextId := some (k + 1) } (l ++ [{ sp with id := some k }]) (k + 1)
        rfl rfl
      refine ⟨s2, ?_, ?_, hA2⟩
      · rw [show countAdds (RegOp.add sp :: ops) = countAdds ops + 1 from rfl,
          range_map_some_succ k (countAdds ops)]
        simp only [runOps, hAdd]
        rw [hrun, hK]
      · rw [hK2]
        refine congrArg some ?_
        rw [show countAdds (RegOp.add sp :: ops) = countAdds ops + 1 from rfl]
        omega
    | remove p =>
      have hA1 : (applyRemove p s).allSprites = some (l.filter (fun x => !(p x))) := by
        simp [applyRemove, hA]
      have hK1 : (applyRemove p s).spriteNextId = some k := by
        simp [applyRemove, hK]
      obtain ⟨s2, hrun, hK2, hA2⟩ := ih _ _ k hA1 hK1
      exact ⟨s2, by simpa [runOps, countAdds] using hrun,
        by simpa [countAdds] using hK2, hA2⟩

/-- C1: starting from `init()` (which zeroes the counter), every sequence of
registry operations whose adds number `n` assigns ids `0, 1, …, n-1` in call
order — the `n`-th `addSprite` call assigns id `n`, the assigned ids are
strictly increasing and never repeat during the scene lifetime, even when
sprites are removed from `allSprites` between the calls. -/
theorem claim1_sprite_ids (ctx : EventContext) (s0 : Scene)
    (hinit : Scene.init [] (mkScene ctx) = some s0) (ops : List RegOp) :
    ∃ s2 ids, runOps s0 ops = some (s2, ids) ∧
      ids = (List.range (countAdds ops)).map (fun i => some i) ∧
      List.Chain' (fun a b : Option Nat => a.getD 0 < b.getD 0) ids ∧
      ids.Nodup ∧
      s2.spriteNextId = some (countAdds ops) := by
  obtain ⟨hA, hK⟩ := init_fresh_fields ctx s0 hinit
  obtain ⟨s2, hrun, hK2, -⟩ := runOps_ids ops s0 [] 0 hA hK
  refine ⟨s2, _, by simpa using hrun, by simp, ?_, ?_, by simpa using hK2⟩
  · rw [List.chain'_map]
    exact List.Pairwise.chain' (by simpa using List.pairwise_lt_range (countAdds ops))
  · exact (List.nodup_range (countAdds ops)).map (Option.some_injective Nat)

/-- Witness for C1: the concrete add/remove/add run assigns ids 0 then 1 and
leaves the counter at 2. -/
theorem claim1_sprite_ids_witness :
    ∃ s2 ids, runOps demoInited demoOps = some (s2, ids) ∧
      ids = (List.range (countAdds demoOps)).map (fun i => some i) ∧
      List.Chain' (fun a b : Option Nat => a.getD 0 < b.getD 0) ids ∧
      ids.Nodup ∧
      s2.spriteNextId = some (countAdds demoOps) :=
  claim1_sprite_ids demoCtx demoInited (by decide) demoOps

/-- C2 counterexample: on a fresh scene, `init()` registers handlers at the
priorities 8, 13, 15, 90, 150, 200 only — no handler is registered at the
camera-follow priority 14, contrary to the claimed table. -/
theorem claim2_counterexample :
    (Scene.init [] (mkScene demoCtx)).map
        (fun s => s.eventContext.map (fun c => c.handlers.map Prod.fst))
      = some (some [8, 13, 15, 90, 150, 200]) ∧
    FOLLOW_SPRITE_PRIORITY ∉ [8, 13, 15, 90, 150, 200] := by
  constructor <;> decide

/-- C2 (amended): on a fresh scene whose event context holds no handlers
yet, `init()` registers frame handlers at exactly the priorities
8 (controller-state update), 13 (controller-driven sprite movement),
15 (physics/update), 90 (background+sprite render), 150 (diagnostics
overlay) and 200 (screen flush) — none at the camera-follow priority 14 —
and within a single tick the event context fires them in exactly that
ascending priority order. -/
theorem claim2_init_priorities (ctx : EventContext) (hempty : ctx.handlers = [])
    (s0 : Scene) (hinit : Scene.init [] (mkScene ctx) = some s0) :
    ∃ c, s0.eventContext = some c ∧
      c.handlers.map Prod.fst
        = [CONTROLLER_PRIORITY, CONTROLLER_SPRITES_PRIORITY, PHYSICS_PRIORITY,
           RENDER_SPRITES_PRIORITY, RENDER_DIAGNOSTICS_PRIORITY,
           UPDATE_SCREEN_PRIORITY] ∧
      FOLLOW_SPRITE_PRIORITY ∉ c.handlers.map Prod.fst ∧
      fireOrder c = c.handlers ∧
      List.Chain' (· < ·) (c.handlers.map Prod.fst) := by
  cases ctx with
  | mk hs d =>
    simp only at hempty
    subst hempty
    simp [Scene.init, mkScene, registerFrameHandler] at hinit
    subst hinit
    refine ⟨_, rfl, rfl, ?_, ?_, ?_⟩
    · show FOLLOW_SPRITE_PRIORITY ∉
        [CONTROLLER_PRIORITY, CONTROLLER_SPRITES_PRIORITY, PHYSICS_PRIORITY,
         RENDER_SPRITES_PRIORITY, RENDER_DIAGNOSTICS_PRIORITY,
         UPDATE_SCREEN_PRIORITY]
      decide
    · show List.mergeSort
          [(CONTROLLER_PRIORITY, FrameHandlerTag.controllerUpdate),
           (CONTROLLER_SPRITES_PRIORITY, FrameHandlerTag.moveSprites),
           (PHYSICS_PRIORITY, FrameHandlerTag.physics),
           (RENDER_SPRITES_PRIORITY, FrameHandlerTag.renderSprites),
           (RENDER_DIAGNOSTICS_PRIORITY, FrameHandlerTag.renderDiagnostics),
           (UPDATE_SCREEN_PRIORITY, FrameHandlerTag.updateScreen)]
          (fun a b => a.1 ≤ b.1)
        = [(CONTROLLER_PRIORITY, FrameHandlerTag.controllerUpdate),
           (CONTROLLER_SPRITES_PRIORITY, FrameHandlerTag.moveSprites),
           (PHYSICS_PRIORITY, FrameHandlerTag.physics),
           (RENDER_SPRITES_PRIORITY, FrameHandlerTag.renderSprites),
           (RENDER_DIAGNOSTICS_PRIORITY, FrameHandlerTag.renderDiagnostics),
           (UPDATE_SCREEN_PRIORITY, FrameHandlerTag.updateScreen)]
      exact List.mergeSort_of_sorted (by decide)
    · show List.Chain' (· < ·)
        [CONTROLLER_PRIORITY, CONTROLLER_SPRITES_PRIORITY, PHYSICS_PRIORITY,
         RENDER_SPRITES_PRIORITY, RENDER_DIAGNOSTICS_PRIORITY,
         UPDATE_SCREEN_PRIORITY]
      norm_num [List.chain'_cons, CONTROLLER_PRIORITY, CONTROLLER_SPRITES_PRIORITY,
        PHYSICS_PRIORITY, RENDER_SPRITES_PRIORITY, RENDER_DIAGNOSTICS_PRIORITY,
        UPDATE_SCREEN_PRIORITY]

/-- Witness for C2 (amended) on the concrete fresh scene. -/
theorem claim2_init_priorities_witness :
    ∃ c, demoInited.eventContext = some c ∧
      c.handlers.map Prod.fst
        = [CONTROLLER_PRIORITY, CONTROLLER_SPRITES_PRIORITY, PHYSICS_PRIORITY,
           RENDER_SPRITES_PRIORITY, RENDER_DIAGNOSTICS_PRIORITY,
           UPDATE_SCREEN_PRIORITY] ∧
      FOLLOW_SPRITE_PRIORITY ∉ c.handlers.map Prod.fst ∧
      fireOrder c = c.handlers ∧
      List.Chain' (· < ·) (c.handlers.map Prod.fst) :=
  claim2_init_priorities demoCtx rfl demoInited (by decide)

/-- Inversion of `renderCore`: the draw succeeds exactly on a defined
background and sprite list, touches only `allSprites`, and draws the
(possibly sorted) sprite list onto the background. -/
theorem renderCore_inv (s s1 : Scene) (img : Image)
    (h : s.renderCore = some (s1, img)) :
    s1.cachedRender = s.cachedRender ∧ s1.flags = s.flags ∧
    img.drawn = (if s.flags.getD 0 &&& SceneFlag.NeedsSorting ≠ 0
                 then (s.allSprites.getD []).mergeSort spriteLE
                 else s.allSprites.getD []) ∧
    s1.allSprites = some img.drawn := by
  rcases hbg : s.background with - | bg <;> rcases hA : s.allSprites with - | l <;>
    simp [Scene.renderCore, hbg, hA] at h
  obtain ⟨h1, h2⟩ := h
  rw [← h1, ← h2]
  simp

/-- C3: `render()` is idempotent within a frame — a second call with no
intervening tick returns the identical image with the scene unchanged, and a
cache hit returns the cached image unchanged; the priority-90 frame handler
unconditionally clears `cachedRender` before drawing, so a `render()` call
after it has run performs a fresh draw: the image it returns is the one a
fresh draw of the current state produces, and it becomes the new cache. -/
theorem claim3_render_cache :
    (∀ (s s' : Scene) (img : Image), s.render = some (s', img) →
        s'.render = some (s', img)) ∧
    (∀ (s : Scene) (img : Image), s.cachedRender = some img →
        s.render = some (s, img)) ∧
    (∀ (s s1 : Scene), s.renderSpritesHandler = some s1 →
        s1.cachedRender = none ∧
        ∀ (s2 : Scene) (img : Image), s1.render = some (s2, img) →
          s1.freshFrame = some img ∧ s2.cachedRender = some img) := by
  have hhit : ∀ (s : Scene) (img : Image), s.cachedRender = some img →
      s.render = some (s, img) := by
    intro s img h
    simp [Scene.render, h]
  refine ⟨?_, hhit, ?_⟩
  · intro s s' img h
    rcases hc : s.cachedRender with - | cimg
    · rw [Scene.render, hc] at h
      rcases hrc : s.renderCore with - | p
      · rw [hrc] at h; exact absurd h (by simp)
      · rw [hrc] at h
        obtain ⟨s1, i⟩ := p
        simp only [Option.some.injEq, Prod.mk.injEq] at h
        obtain ⟨hs, hi⟩ := h
        exact hs ▸ hi ▸ hhit _ i rfl
    · have := hhit s cimg hc
      rw [this] at h
      simp only [Option.some.injEq, Prod.mk.injEq] at h
      obtain ⟨hs, hi⟩ := h
      exact hs ▸ hi ▸ (hs.symm ▸ this)
  · intro s s1 h
    rcases hrc : Scene.renderCore { s with cachedRender := none } with - | p
    · rw [Scene.renderSpritesHandler, hrc] at h; exact absurd h (by simp)
    · obtain ⟨sc, i⟩ := p
      rw [Scene.renderSpritesHandler, hrc] at h
      simp at h
      have hc1 : s1.cachedRender = none := by
        have hinv := (renderCore_inv _ _ _ hrc).1
        rw [← h]
        simpa using hinv
      refine ⟨hc1, ?_⟩
      intro s2 img hr
      rw [Scene.render, hc1] at hr
      rcases hrc1 : s1.renderCore with - | q
      · rw [hrc1] at hr; exact absurd hr (by simp)
      · obtain ⟨sd, j⟩ := q
        rw [hrc1] at hr
        simp only [Option.some.injEq, Prod.mk.injEq] at hr
        obtain ⟨hs2, hj⟩ := hr
        constructor
        · rw [Scene.freshFrame, hrc1, hj]
          rfl
        · rw [← hs2, hj]

/-- Witness for C3: on the concrete scene holding a cached image, `render()`
returns that image with the scene unchanged. -/
theorem claim3_render_cache_witness :
    demoCached.render = some (demoCached, demoImg) :=
  claim3_render_cache.2.1 demoCached demoImg rfl

/-- The comparator decides exactly the `zIdLE` draw-order relation. -/
theorem spriteLE_eq_true_iff (a b : SpriteLike) :
    spriteLE a b = true ↔ zIdLE a b := by
  simp [spriteLE, zIdLE]

/-- The comparator is transitive. -/
theorem spriteLE_trans (a b c : SpriteLike) :
    spriteLE a b = true → spriteLE b c = true → spriteLE a c = true := by
  simp only [spriteLE_eq_true_iff, zIdLE]
  intro hab hbc
  rcases hab with h | ⟨h1, h2⟩ <;> rcases hbc with h' | ⟨h1', h2'⟩ <;> omega

/-- The comparator is total. -/
theorem spriteLE_total (a b : SpriteLike) :
    (spriteLE a b || spriteLE b a) = true := by
  rw [Bool.or_eq_true, spriteLE_eq_true_iff, spriteLE_eq_true_iff]
  simp only [zIdLE]
  omega

/-- The controller-update handler never touches `flags`. -/
theorem controllerUpdateHandler_flags (s : Scene) :
    (s.controllerUpdateHandler).flags = s.flags := by
  cases hm : s.millisElapsed <;> cases hc : s.eventContext <;>
    simp [Scene.controllerUpdateHandler, hm, hc]

/-- C4: in the core draw sequence, when `NeedsSorting` is clear the sprites
are drawn exactly in insertion order; when it is set the drawn order is a
permutation of `allSprites` that is sorted ascending by `z` with ties broken
by ascending `id`; the diagnostics handler of the same frame clears `flags`
to 0, and the flags remain 0 through the screen flush and the next tick's
controller handlers, i.e. before the next frame's physics phase. -/
theorem claim4_draw_order :
    (∀ (s : Scene) (bg : Background) (l : List SpriteLike),
        s.background = some bg → s.allSprites = some l →
        s.flags.getD 0 &&& SceneFlag.NeedsSorting = 0 →
        s.renderCore = some ({ s with allSprites := some l },
                             { bg := bg, drawn := l })) ∧
    (∀ (s s1 : Scene) (img : Image),
        s.flags.getD 0 &&& SceneFlag.NeedsSorting ≠ 0 →
        s.renderCore = some (s1, img) →
        img.drawn.Perm (s.allSprites.getD []) ∧ List.Pairwise zIdLE img.drawn) ∧
    (∀ s : Scene, (s.renderDiagnosticsHandler).flags = some 0) ∧
    (∀ s : Scene,
        (((s.renderDiagnosticsHandler).updateScreenHandler).controllerUpdateHandler.moveSpritesHandler).flags
          = some 0) := by
  refine ⟨?_, ?_, fun s => rfl, ?_⟩
  · intro s bg l hbg hA hf
    simp [Scene.renderCore, hbg, hA, hf]
  · intro s s1 img hf h
    obtain ⟨-, -, hdrawn, -⟩ := renderCore_inv _ _ _ h
    rw [if_pos hf] at hdrawn
    constructor
    · rw [hdrawn]
      exact List.mergeSort_perm _ _
    · rw [hdrawn]
      have hsorted := @List.sorted_mergeSort _ spriteLE spriteLE_trans
        spriteLE_total (s.allSprites.getD [])
      exact hsorted.imp (fun h => (spriteLE_eq_true_iff _ _).1 h)
  · intro s
    have hmv : (((s.renderDiagnosticsHandler).updateScreenHandler).controllerUpdateHandler.moveSpritesHandler).flags
        = (((s.renderDiagnosticsHandler).updateScreenHandler).controllerUpdateHandler).flags := rfl
    rw [hmv, controllerUpdateHandler_flags]
    rfl

/-- Witness for C4: on the concrete initialized scene (flag clear), the core
draw sequence draws the sprite list in insertion order. -/
theorem claim4_draw_order_witness :
    demoInited.renderCore
      = some ({ demoInited with allSprites := some [] },
              { bg := { camera := {} }, drawn := [] }) :=
  claim4_draw_order.1 demoInited { camera := {} } [] rfl rfl rfl

/-- C8: `writeLine(s)` sends exactly the bytes of `s` followed by CR LF;
`writeValue(name, v)` with a non-empty name sends exactly `name`, a colon,
the decimal rendering of `v` and CR LF; `writeValue("", v)` omits the name
and the colon. -/
theorem claim8_write_bytes :
    (∀ text : List Char, writeLine text = text ++ ['\r', '\n']) ∧
    (∀ (name : List Char) (value : Int), name ≠ [] →
        writeValue name value
          = name ++ [':'] ++ (toString value).data ++ ['\r', '\n']) ∧
    (∀ value : Int, writeValue [] value = (toString value).data ++ ['\r', '\n']) := by
  refine ⟨fun text => rfl, ?_, fun value => rfl⟩
  intro name value h
  simp [writeValue, writeString, writeNumber, NEW_LINE, h]

/-- Witness for C8: `writeValue("temp", 21)` produces exactly the bytes of
`"temp:21\r\n"`. -/
theorem claim8_write_bytes_witness :
    writeValue ['t', 'e', 'm', 'p'] 21
      = ['t', 'e', 'm', 'p', ':', '2', '1', '\r', '\n'] :=
  (claim8_write_bytes.2.1 ['t', 'e', 'm', 'p'] 21 (by decide)).trans (by decide)

/-- C9 counterexample: with no transport device, `serial.read()` returns the
negative `DEVICE_NOT_SUPPORTED` error code — not an empty or zero value as
claimed. -/
theorem claim9_counterexample :
    (serialRead { device := none }).1 = DAL_DEVICE_NOT_SUPPORTED ∧
    (serialRead { device := none }).1 < 0 ∧
    (serialRead { device := none }).1 ≠ 0 := by
  refine ⟨rfl, by decide, by decide⟩

/-- C9 (amended): with no transport device every serial operation degrades
silently and none raises an error (every modelled operation is total):
`readBuffer` returns the empty buffer, `read` returns the negative
`DEVICE_NOT_SUPPORTED` error code — consistent with its own doc (negative
if error) though not an "empty or zero" value — and every write or
configuration operation is a no-op. -/
theorem claim9_no_device_degrades (st : SerialState) (h : st.device = none) :
    serialRead st = (DAL_DEVICE_NOT_SUPPORTED, st) ∧
    DAL_DEVICE_NOT_SUPPORTED < 0 ∧
    serialReadBuffer st = ([], st) ∧
    (∀ b, serialWriteBuffer st b = st) ∧
    (∀ n, serialSetRxBufferSize st n = st) ∧
    (∀ n, serialSetTxBufferSize st n = st) ∧
    (∀ r, serialSetBaudRate st r = st) ∧
    (∀ tx rx r, serialRedirect st tx rx r = st) ∧
    (∀ e t, serialOnEvent st e t = st) := by
  refine ⟨by simp [serialRead, h], by decide, by simp [serialReadBuffer, h],
    fun b => by simp [serialWriteBuffer, h],
    fun n => by simp [serialSetRxBufferSize, h],
    fun n => by simp [serialSetTxBufferSize, h],
    fun r => by simp [serialSetBaudRate, h],
    fun tx rx r => by simp [serialRedirect, h],
    fun e t => by simp [serialOnEvent, h]⟩

/-- Witness for C9 (amended) at the concrete device-less transport state. -/
theorem claim9_no_device_degrades_witness :
    serialRead { device := none } = (DAL_DEVICE_NOT_SUPPORTED, { device := none }) ∧
    serialReadBuffer { device := none } = ([], { device := none }) ∧
    serialWriteBuffer { device := none } [1, 2, 3] = { device := none } :=
  ⟨(claim9_no_device_degrades { device := none } rfl).1,
   (claim9_no_device_degrades { device := none } rfl).2.2.1,
   (claim9_no_device_degrades { device := none } rfl).2.2.2.1 [1, 2, 3]⟩

/-- When the delimiter is not in the buffer, the decoder yields nothing. -/
theorem decodeUntil_not_mem {delim : Char} {buf : List Char}
    (h : delim ∉ buf) : decodeUntil delim buf = none := by
  simp [decodeUntil, h]

/-- When the delimiter is in the buffer, the decoder returns the prefix
before its first occurrence. -/
theorem decodeUntil_mem {delim : Char} {buf : List Char} (h : delim ∈ buf) :
    decodeUntil delim buf
      = some (buf.takeWhile (fun c => c != delim),
              (buf.dropWhile (fun c => c != delim)).drop 1) := by
  simp [decodeUntil, h]

/-- Timeout path of the polling loop: if the delimiter never shows up, the
loop started at time `t < T` gives up with the empty string exactly when the
clock reaches `T` — having polled once per time unit. -/
theorem readUntilAux_timeout (delim : Char) (input : Nat → List Char)
    (buf0 : List Char) (T : Nat)
    (hnone : ∀ t, delim ∉ accum buf0 input t) :
    ∀ (fuel t : Nat), t < T → T - t ≤ fuel →
      readUntilAux delim (some T) input (accum buf0 input t) t fuel
        = some ([], T) := by
  intro fuel
  induction fuel with
  | zero => intro t h1 h2; omega
  | succ fuel ih =>
    intro t h1 h2
    rw [readUntilAux, decodeUntil_not_mem (hnone t)]
    simp only [Option.all_some]
    rw [show accum buf0 input t ++ input t = accum buf0 input (t + 1) from rfl]
    by_cases hlt : t + 1 < T
    · rw [if_pos (by simpa using hlt)]
      exact ih (t + 1) hlt (by omega)
    · rw [if_neg (by simpa using hlt)]
      have ht : t + 1 = T := by omega
      rw [ht]

/-- First-hit path of the polling loop: if the delimiter first appears in
the accumulated input at poll `i`, and the loop is still running at `i`
(first iteration, no timeout, or `i` before the timeout), the call returns
at time `i` with exactly the text preceding the delimiter. -/
theorem readUntilAux_hit (delim : Char) (input : Nat → List Char)
    (buf0 : List Char) (timeOut : Option Nat) (i : Nat)
    (hhit : delim ∈ accum buf0 input i)
    (hbefore : ∀ j, j < i → delim ∉ accum buf0 input j) :
    ∀ (fuel t : Nat), t ≤ i → i - t < fuel →
      (t = i ∨ ∀ T, timeOut = some T → i < T) →
      readUntilAux delim timeOut input (accum buf0 input t) t fuel
        = some ((accum buf0 input i).takeWhile (fun c => c != delim), i) := by
  intro fuel
  induction fuel with
  | zero => intro t h1 h2 h3; omega
  | succ fuel ih =>
    intro t hle hfuel hcond
    rcases Nat.eq_or_lt_of_le hle with heq | hlt
    · subst heq
      rw [readUntilAux, decodeUntil_mem hhit]
    · have hcond2 : ∀ T, timeOut = some T → i < T := by
        rcases hcond with h | h
        · omega
        · exact h
      rw [readUntilAux, decodeUntil_not_mem (hbefore t hlt)]
      simp only
      rw [show accum buf0 input t ++ input t = accum buf0 input (t + 1) from rfl]
      have hpass : timeOut.all (fun T => decide (t + 1 < T)) = true := by
        cases hT : timeOut with
        | none => rfl
        | some T =>
          simp only [Option.all_some, decide_eq_true_eq]
          have := hcond2 T hT
          omega
      rw [if_pos hpass]
      exact ih (t + 1) hlt (by omega) (Or.inr hcond2)

/-- No-timeout path of the polling loop: while the delimiter never appears,
the loop never returns, however far it is unfolded. -/
theorem readUntilAux_no_timeout (delim : Char) (input : Nat → List Char)
    (buf0 : List Char)
    (hnone : ∀ t, delim ∉ accum buf0 input t) :
    ∀ (fuel t : Nat),
      readUntilAux delim none input (accum buf0 input t) t fuel = none := by
  intro fuel
  induction fuel with
  | zero => intro t; rfl
  | succ fuel ih =>
    intro t
    rw [readUntilAux, decodeUntil_not_mem (hnone t)]
    simp only [Option.all_none, if_pos]
    rw [show accum buf0 input t ++ input t = accum buf0 input (t + 1) from rfl]
    exact ih (t + 1)

/-- C7: the `readUntil` polling contract. With a timeout `T ≥ 1` and no
delimiter ever arriving, the call returns the empty string exactly when `T`
time units have elapsed, having polled the buffer once per unit (the model
consumes one input chunk and pauses 1 unit per iteration). If the delimiter
first appears in the buffered/decoded input at poll `i` — in particular
before the timeout — the call returns at time `i` with exactly the text up
to and excluding the delimiter. With no timeout the loop never gives up:
it returns nothing while the delimiter is absent, however far it runs. -/
theorem claim7_readUntil_contract :
    (∀ (delim : Char) (input : Nat → List Char) (buf0 : List Char) (T fuel : Nat),
        (∀ t, delim ∉ accum buf0 input t) → 1 ≤ T → T ≤ fuel →
        readUntil delim (some T) input buf0 fuel = some ([], T)) ∧
    (∀ (delim : Char) (input : Nat → List Char) (buf0 : List Char)
        (timeOut : Option Nat) (i fuel : Nat),
        delim ∈ accum buf0 input i →
        (∀ j, j < i → delim ∉ accum buf0 input j) →
        (i = 0 ∨ ∀ T, timeOut = some T → i < T) →
        i < fuel →
        readUntil delim timeOut input buf0 fuel
          = some ((accum buf0 input i).takeWhile (fun c => c != delim), i)) ∧
    (∀ (delim : Char) (input : Nat → List Char) (buf0 : List Char) (fuel : Nat),
        (∀ t, delim ∉ accum buf0 input t) →
        readUntil delim none input buf0 fuel = none) := by
  refine ⟨?_, ?_, ?_⟩
  · intro delim input buf0 T fuel hnone hT hfuel
    exact readUntilAux_timeout delim input buf0 T hnone fuel 0 (by omega) (by omega)
  · intro delim input buf0 timeOut i fuel hhit hbefore hcond hfuel
    refine readUntilAux_hit delim input buf0 timeOut i hhit hbefore fuel 0
      (by omega) (by omega) ?_
    rcases hcond with h | h
    · exact Or.inl h.symm
    · exact Or.inr h
  · intro delim input buf0 fuel hnone
    exact readUntilAux_no_timeout delim input buf0 hnone fuel 0

/-- Witness for C7: with initial buffer `"a"`, a chunk `"b:c"` arriving at
the first poll and a timeout of 5, `readUntil` returns `"ab"` at time 1. -/
theorem claim7_readUntil_contract_witness :
    readUntil ':' (some 5) demoInput ['a'] 3 = some (['a', 'b'], 1) :=
  (claim7_readUntil_contract.2.1 ':' demoInput ['a'] (some 5) 1 3
    (by decide)
    (fun j hj => by
      have hj0 : j = 0 := by omega
      subst hj0
      decide)
    (Or.inr (fun T hT => by cases hT; decide))
    (by decide)).trans (by decide)
